import Mathlib

/-!
Verification of the deepfake-video-detection backend (`backend/app.py`).

The file shallowly embeds the Flask request handler and its lazy, keyed
detector cache.  Pure Python code becomes Lean functions; the module-level
mutable state (the `detectors` dictionary) becomes explicit state passing
(`RegState`); exceptions become `Except`; filesystem and logging side
effects become an explicit event trace (`Event`).  External collaborators
that live in repository files outside the provided source
(`config.py`, `video_utils.py`, `detector.py`) are modelled from the spec
as parameters (`Config`, `Env`).
-/

namespace DFApp

/-- Modelled from the spec: `config.py` is not among the provided sources.
The spec lists the configuration consumed: upload directory path, allowed
extensions set, frame sampling stride, max frame count, enumerated model
name list. -/
structure Config where
  UPLOAD_DIR : String
  ALLOWED_EXTENSIONS : List String
  SAMPLE_EVERY_N_FRAMES : Nat
  MAX_FRAMES : Nat
  MODEL_NAMES : List String
deriving DecidableEq, Repr

/-- A `DeepfakeDetector` instance is opaque; we track the model it was
constructed for and a construction serial number (the value of the
global construction counter at construction time), which lets theorems
talk about "the same instance" and "number of constructions". -/
structure Detector where
  model_name : String
  serial : Nat
deriving DecidableEq, Repr

/-- The module-level mutable state of `app.py`: the `detectors` dictionary
(association list, newest binding first, as observed through `lookup`)
plus a counter of how many `DeepfakeDetector` constructions have happened
in the process so far. -/
structure RegState where
  detectors : List (String × Detector)
  counter : Nat
deriving DecidableEq, Repr

/-- The state at process start: empty dictionary, no constructions yet. -/
def RegState.init : RegState := ⟨[], 0⟩

/-- Python `repr` of a string: the string wrapped in single quotes
(the form f-string interpolation uses inside a list or set display). -/
def pyStr (s : String) : String := "\x27" ++ s ++ "\x27"

/-- Comma-separated join of Python string reprs, as inside a list/set display. -/
def pyStrJoin : List String → String
  | [] => ""
  | [s] => pyStr s
  | s :: rest => pyStr s ++ ", " ++ pyStrJoin rest

/-- Python `repr` of a list of strings, as produced by
`f"... {MODEL_NAMES}"` in `get_detector`. -/
def pyStrListRepr (names : List String) : String :=
  "[" ++ pyStrJoin names ++ "]"

/-- Python `repr` of a set of strings, as produced by
`f"allowed extensions: {ALLOWED_EXTENSIONS}"` in `analyze` (the iteration
order of the set is modelled by the list order). -/
def pyStrSetRepr (names : List String) : String :=
  "\x7b" ++ pyStrJoin names ++ "\x7d"

/-- The message of the `ValueError` raised by `get_detector`:
`f"Unknown model \x27{model_name}\x27. Available: {MODEL_NAMES}"`. -/
def unknownModelMsg (model_name : String) (names : List String) : String :=
  "Unknown model " ++ pyStr model_name ++ ". Available: " ++ pyStrListRepr names

/-- Embedding of `get_detector` (app.py lines 16-26).  The Python function
reads and writes the module-level `detectors` dictionary; here the state is
passed and returned explicitly, and the `ValueError` becomes `Except.error`.
A cache miss constructs `DeepfakeDetector(model_name=model_name)`, modelled
as minting `⟨model_name, st.counter⟩` and bumping the construction counter. -/
def get_detector (cfg : Config) (model_name : String) (st : RegState) :
    Except String (Detector × RegState) :=
  if model_name ∈ cfg.MODEL_NAMES then
    match st.detectors.lookup model_name with
    | some d => .ok (d, st)
    | none =>
      let d : Detector := ⟨model_name, st.counter⟩
      .ok (d, ⟨(model_name, d) :: st.detectors, st.counter + 1⟩)
  else
    .error (unknownModelMsg model_name cfg.MODEL_NAMES)

/-- The registry state after one `get_detector` call (a failed call leaves
the module state as it was). -/
def stepGet (cfg : Config) (st : RegState) (name : String) : RegState :=
  match get_detector cfg name st with
  | .ok (_, st') => st'
  | .error _ => st

/-- Whether a `get_detector name` call from state `st` would run the
`DeepfakeDetector` constructor. -/
def constructsNow (cfg : Config) (name : String) (st : RegState) : Bool :=
  decide (name ∈ cfg.MODEL_NAMES) && (st.detectors.lookup name).isNone

/-- How many times the sequence of calls `get_detector n`, `n` drawn in
order from `names`, runs the constructor for the particular model `m`. -/
def countConstructions (cfg : Config) (m : String) : List String → RegState → Nat
  | [], _ => 0
  | n :: rest, st =>
    (if n = m ∧ constructsNow cfg n st then 1 else 0) +
      countConstructions cfg m rest (stepGet cfg st n)

/-- A file uploaded in the multipart form (only the attribute the handler
reads, `filename`; the byte content is opaque and never inspected by the
handler itself). -/
structure UploadedFile where
  filename : String
deriving DecidableEq, Repr

/-- The parts of the Flask `request` object the handler reads:
`request.files` and `request.form`, each an association of field names. -/
structure Request where
  files : List (String × UploadedFile)
  form : List (String × String)
deriving DecidableEq, Repr

/-- Modelled from the spec: the external collaborators consumed by
`analyze` whose code is not among the provided sources —
`video_utils.py` (`allowed_file`, `sample_frames`, `frame_to_base64_bgr`),
`werkzeug` (`secure_filename`), `uuid` (the 8-character prefix drawn for
this request), and `detector.py` (the detector operations
`predict_frames` and `aggregate`, keyed here by the constructed
`Detector` instance).  Frames are opaque (`Nat`); scores and the
aggregate object are opaque numbers (`Int`).  Fallible collaborators
return `Except String`, an exception surfacing as `.error`. -/
structure Env where
  allowed_file : String → List String → Bool
  secure_filename : String → String
  uid : String
  sample_frames : String → Nat → Nat → Nat × Nat → Except String (List Nat)
  predict_frames : Detector → List Nat → Except String (List Int)
  aggregate : Detector → List Int → Except String Int
  frame_to_base64_bgr : Nat → String
deriving Inhabited

/-- Modelled from the spec: `detector.py` is not among the provided
sources; the spec says the Detector collaborator "produces a numeric
per-frame score sequence", i.e. `predict_frames` yields exactly one
score per input frame. -/
def PerFrameDetector (env : Env) : Prop :=
  ∀ d frames scores, env.predict_frames d frames = .ok scores →
    scores.length = frames.length

/-- Observable side effects of one request, in program order:
the upload write (`file.save`), the frame-sampler invocation, the
`get_detector` call, the traceback logged by the top-level handler, and —
never emitted by this handler, which contains no `os.remove` — a file
deletion. -/
inductive Event where
  | savedFile (path : String)
  | sampledFrames (path : String)
  | calledGetDetector (model : String)
  | loggedTraceback (msg : String)
  | deletedFile (path : String)
deriving DecidableEq, Repr

/-- One entry of the `thumbnails` array of a success response. -/
structure Thumb where
  index : Nat
  img_b64 : String
  score : Option Int
deriving DecidableEq, Repr

/-- The body of a 200 response from `analyze`. -/
structure Payload where
  filename : String
  model_used : String
  num_frames : Nat
  frame_scores : List Int
  aggregate : Int
  thumbnails : List Thumb
deriving DecidableEq, Repr

/-- A JSON response body: either `\x7b"error": msg\x7d` or the success payload. -/
inductive Body where
  | err (msg : String)
  | success (p : Payload)
deriving DecidableEq, Repr

/-- An HTTP response: status code and JSON body. -/
structure Response where
  status : Nat
  body : Body
deriving DecidableEq, Repr

/-- The thumbnail loop of `analyze` (app.py lines 65-71):
`for i, f in enumerate(frames[:6])`, each entry carrying
`scores[i] if i < len(scores) else None`. -/
def mkThumbnails (env : Env) (frames : List Nat) (scores : List Int) :
    List Thumb :=
  (frames.take 6).enum.map fun p =>
    { index := p.1
      img_b64 := env.frame_to_base64_bgr p.2
      score := if h : p.1 < scores.length then some (scores.get ⟨p.1, h⟩) else none }

/-- The body of the `try:` block of `analyze` (app.py lines 35-82).
Early `return jsonify(...), 400` statements are `.ok` responses; a raised
exception is `.error` and escapes to `analyze`.  Alongside the outcome it
returns the event trace accumulated so far and the module state
(side effects performed before an exception persist).
Note the Python evaluation order on line 46: the default argument
`MODEL_NAMES[0]` of `request.form.get` is evaluated eagerly, before the
lookup, so an empty `MODEL_NAMES` raises `IndexError` here even when the
`model_name` field is present. -/
def analyze_body (cfg : Config) (env : Env) (req : Request) (st : RegState) :
    Except String Response × List Event × RegState :=
  match req.files.lookup "file" with
  | none => (.ok ⟨400, .err "no file part"⟩, [], st)
  | some file =>
    if file.filename = "" then
      (.ok ⟨400, .err "no selected file"⟩, [], st)
    else if ¬ env.allowed_file file.filename cfg.ALLOWED_EXTENSIONS then
      (.ok ⟨400, .err ("allowed extensions: " ++ pyStrSetRepr cfg.ALLOWED_EXTENSIONS)⟩, [], st)
    else
      match cfg.MODEL_NAMES.head? with
      | none => (.error "list index out of range", [], st)
      | some default0 =>
        let model_name := ((req.form.lookup "model_name").getD default0)
        let filename := env.secure_filename file.filename
        let saved_name := env.uid ++ "_" ++ filename
        let saved_path := cfg.UPLOAD_DIR ++ "/" ++ saved_name
        let ev1 : List Event := [.savedFile saved_path]
        let ev2 : List Event := ev1 ++ [.sampledFrames saved_path]
        match env.sample_frames saved_path cfg.SAMPLE_EVERY_N_FRAMES cfg.MAX_FRAMES (256, 256) with
        | .error e => (.error e, ev2, st)
        | .ok frames =>
          if frames.isEmpty then
            (.ok ⟨400, .err "no frames extracted"⟩, ev2, st)
          else
            let ev3 : List Event := ev2 ++ [.calledGetDetector model_name]
            match get_detector cfg model_name st with
            | .error e => (.error e, ev3, st)
            | .ok (det, st') =>
              match env.predict_frames det frames with
              | .error e => (.error e, ev3, st')
              | .ok scores =>
                match env.aggregate det scores with
                | .error e => (.error e, ev3, st')
                | .ok agg =>
                  (.ok ⟨200, .success
                    { filename := filename
                      model_used := model_name
                      num_frames := frames.length
                      frame_scores := scores
                      aggregate := agg
                      thumbnails := mkThumbnails env frames scores }⟩, ev3, st')

/-- The full `analyze` handler (app.py lines 33-85): the `try:` block plus
the `except Exception` boundary, which logs the traceback
(`traceback.print_exc()`) and returns `jsonify({"error": str(e)}), 500`. -/
def analyze (cfg : Config) (env : Env) (req : Request) (st : RegState) :
    Response × List Event × RegState :=
  match analyze_body cfg env req st with
  | (.ok r, evs, st') => (r, evs, st')
  | (.error e, evs, st') => (⟨500, .err e⟩, evs ++ [.loggedTraceback e], st')

/-! ## Shared concrete instances used by witnesses -/

/-- A concrete configuration used by witness theorems. -/
def cfgW : Config := ⟨"uploads", ["mp4", "mov"], 5, 10, ["model_a", "model_b"]⟩

/-- A concrete collaborator environment used by witness theorems:
every extension allowed, identity sanitizer, a fixed 8-character prefix,
three sampled frames, one score per frame, constant aggregate. -/
def envW : Env :=
  ⟨fun _ _ => true, id, "abcd1234",
   fun _ _ _ _ => .ok [0, 1, 2],
   fun _ fs => .ok (fs.map Int.ofNat),
   fun _ _ => .ok 7,
   fun _ => "img"⟩

/-- A concrete well-formed request used by witness theorems. -/
def reqW : Request := ⟨[("file", ⟨"vid.mp4"⟩)], []⟩

/-- `v` occurs as a contiguous substring of `msg`. -/
def appearsIn (v msg : String) : Prop := ∃ a b, msg = a ++ v ++ b

/-- A configuration with an empty model list, used by witnesses for the
exception paths. -/
def cfgE : Config := ⟨"uploads", ["mp4", "mov"], 5, 10, []⟩

/-- A concrete environment that rejects every filename at the extension
check, used by the C6 witness. -/
def envNoExt : Env :=
  ⟨fun _ _ => false, id, "abcd1234",
   fun _ _ _ _ => .ok [0, 1, 2],
   fun _ fs => .ok (fs.map Int.ofNat),
   fun _ _ => .ok 7,
   fun _ => "img"⟩

/-- A concrete environment whose detector returns fewer scores (one) than
frames (three), for the C7 witness: the guard must fill the later
thumbnails with `null`. -/
def envShort : Env :=
  ⟨fun _ _ => true, id, "abcd1234",
   fun _ _ _ _ => .ok [0, 1, 2],
   fun _ _ => .ok [9],
   fun _ _ => .ok 9,
   fun _ => "img"⟩

/-! ## A two-thread interleaving model of `get_detector`

CPython executes `get_detector` as a sequence of separately-scheduled
steps: the `MODEL_NAMES` membership test, the `detectors` membership test,
the (long-running) `DeepfakeDetector` construction, and the dictionary
store.  The source takes no lock around the check-then-construct-then-store
sequence, so two request threads resolving the same model interleave these
steps freely.  `threadStep` is the per-step small-step semantics of one
thread running `get_detector m`; `interleave` runs two such threads under
an explicit schedule (`true` = first thread moves). -/

/-- Program counter of one thread executing `get_detector m`. -/
inductive TPC where
  | checkValid
  | checkCache
  | construct
  | store (d : Detector)
  | done
deriving DecidableEq, Repr

/-- One atomic step of a thread executing `get_detector m` against the
shared module state: the membership test on `MODEL_NAMES` (a raise moves
straight to `done`), the membership test on `detectors`, the constructor
call (bumps the construction counter), and the dictionary store. -/
def threadStep (cfg : Config) (m : String) (st : RegState) : TPC → RegState × TPC
  | .checkValid => if m ∈ cfg.MODEL_NAMES then (st, .checkCache) else (st, .done)
  | .checkCache =>
    if (st.detectors.lookup m).isSome then (st, .done) else (st, .construct)
  | .construct => (⟨st.detectors, st.counter + 1⟩, .store ⟨m, st.counter⟩)
  | .store d => (⟨(m, d) :: st.detectors, st.counter⟩, .done)
  | .done => (st, .done)

/-- Shared module state plus the two threads' program counters. -/
structure MachineSt where
  g : RegState
  pcA : TPC
  pcB : TPC
deriving DecidableEq, Repr

/-- Run two threads, both executing `get_detector m`, under a schedule:
`true` steps the first thread, `false` the second. -/
def interleave (cfg : Config) (m : String) : List Bool → MachineSt → MachineSt
  | [], s => s
  | b :: rest, s =>
    if b then
      let step := threadStep cfg m s.g s.pcA
      interleave cfg m rest ⟨step.1, step.2, s.pcB⟩
    else
      let step := threadStep cfg m s.g s.pcB
      interleave cfg m rest ⟨step.1, s.pcA, step.2⟩

/-- Both threads about to run `get_detector m` on a fresh process. -/
def initMachine : MachineSt := ⟨RegState.init, .checkValid, .checkValid⟩

/-- The racy alternating schedule: both threads pass the cache check
before either stores. -/
def racySchedule : List Bool :=
  [true, false, true, false, true, false, true, false]

/-- The serialized schedule: the first thread runs to completion before
the second starts. -/
def serialSchedule : List Bool :=
  [true, true, true, true, false, false, false, false]

/-! ## Lemmas about the detector registry -/

theorem lookup_cons_pair (a k : String) (v : Detector)
    (l : List (String × Detector)) :
    List.lookup a ((k, v) :: l) = if a = k then some v else List.lookup a l := by
  simp only [List.lookup]
  by_cases h : a = k
  · simp [h]
  · rw [if_neg h, beq_eq_false_iff_ne.mpr h]

theorem get_detector_hit (cfg : Config) (m : String) (st : RegState)
    (d : Detector) (hm : m ∈ cfg.MODEL_NAMES)
    (hl : st.detectors.lookup m = some d) :
    get_detector cfg m st = .ok (d, st) := by
  simp [get_detector, hm, hl]

theorem get_detector_miss (cfg : Config) (m : String) (st : RegState)
    (hm : m ∈ cfg.MODEL_NAMES) (hl : st.detectors.lookup m = none) :
    get_detector cfg m st =
      .ok (⟨m, st.counter⟩,
           ⟨(m, ⟨m, st.counter⟩) :: st.detectors, st.counter + 1⟩) := by
  simp [get_detector, hm, hl]

theorem get_detector_invalid (cfg : Config) (m : String) (st : RegState)
    (hm : m ∉ cfg.MODEL_NAMES) :
    get_detector cfg m st = .error (unknownModelMsg m cfg.MODEL_NAMES) := by
  simp [get_detector, hm]

/-- A cached entry survives any further `get_detector` call, with the same
instance: the registry only ever gains (fresh) entries. -/
theorem lookup_stepGet (cfg : Config) (m n : String) (st : RegState)
    (d : Detector) (hl : st.detectors.lookup m = some d) :
    (stepGet cfg st n).detectors.lookup m = some d := by
  unfold stepGet
  by_cases hn : n ∈ cfg.MODEL_NAMES
  · cases hln : st.detectors.lookup n with
    | some dn => rw [get_detector_hit cfg n st dn hn hln]; exact hl
    | none =>
      rw [get_detector_miss cfg n st hn hln]
      have hmn : m ≠ n := by
        intro hEq; rw [hEq, hln] at hl; exact Option.noConfusion hl
      simpa [lookup_cons_pair, hmn] using hl
  · rw [get_detector_invalid cfg n st hn]; exact hl

/-- Once `m` is cached, no later call in any sequence constructs it again. -/
theorem countConstructions_eq_zero_of_cached (cfg : Config) (m : String)
    (names : List String) (st : RegState) (d : Detector)
    (hl : st.detectors.lookup m = some d) :
    countConstructions cfg m names st = 0 := by
  induction names generalizing st with
  | nil => rfl
  | cons n rest ih =>
    unfold countConstructions
    have hz : ¬ (n = m ∧ constructsNow cfg n st) := by
      rintro ⟨rfl, hc⟩
      unfold constructsNow at hc
      rw [hl] at hc
      simp at hc
    rw [if_neg hz, ih (stepGet cfg st n) (lookup_stepGet cfg m n st d hl)]

theorem countConstructions_le_one (cfg : Config) (m : String)
    (names : List String) (st : RegState) :
    countConstructions cfg m names st ≤ 1 := by
  induction names generalizing st with
  | nil => exact Nat.zero_le 1
  | cons n rest ih =>
    unfold countConstructions
    by_cases h : n = m ∧ constructsNow cfg n st
    · obtain ⟨rfl, hc⟩ := h
      unfold constructsNow at hc
      have hmem : n ∈ cfg.MODEL_NAMES := by
        rcases Bool.and_eq_true _ _ |>.mp hc with ⟨h1, _⟩
        exact of_decide_eq_true h1
      have hnone : st.detectors.lookup n = none := by
        rcases Bool.and_eq_true _ _ |>.mp hc with ⟨_, h2⟩
        exact Option.isNone_iff_eq_none.mp h2
      have hstep : stepGet cfg st n =
          ⟨(n, ⟨n, st.counter⟩) :: st.detectors, st.counter + 1⟩ := by
        unfold stepGet
        rw [get_detector_miss cfg n st hmem hnone]
      have hrest : countConstructions cfg n rest (stepGet cfg st n) = 0 := by
        refine countConstructions_eq_zero_of_cached cfg n rest _ ⟨n, st.counter⟩ ?_
        rw [hstep]
        simp [lookup_cons_pair]
      rw [if_pos ⟨rfl, by unfold constructsNow; rw [hnone]; simp [hmem]⟩, hrest]
    · rw [if_neg h]
      simpa using ih (stepGet cfg st n)

/-! ## C1: the registry constructs each valid model at most once -/

/-- C1: for every valid model identifier `m`, the `DeepfakeDetector`
constructor is invoked at most once for `m` across any sequence of
`get_detector` calls: the first call on a state where `m` is absent
constructs an instance and stores it, and every subsequent call returns
that same stored instance with the registry unchanged. -/
theorem detector_constructed_at_most_once (cfg : Config) (m : String)
    (hm : m ∈ cfg.MODEL_NAMES) :
    (∀ names st, countConstructions cfg m names st ≤ 1) ∧
    (∀ st, st.detectors.lookup m = none →
        get_detector cfg m st =
          .ok (⟨m, st.counter⟩,
               ⟨(m, ⟨m, st.counter⟩) :: st.detectors, st.counter + 1⟩)) ∧
    (∀ st d, st.detectors.lookup m = some d →
        get_detector cfg m st = .ok (d, st)) :=
  ⟨fun names st => countConstructions_le_one cfg m names st,
   fun st hl => get_detector_miss cfg m st hm hl,
   fun st d hl => get_detector_hit cfg m st d hm hl⟩

/-- Witness for C1 at a concrete input: four calls, three of them for
`model_a`, construct `model_a` exactly once. -/
theorem detector_constructed_at_most_once_witness :
    countConstructions cfgW "model_a"
      ["model_a", "model_a", "model_b", "model_a"] RegState.init ≤ 1 ∧
    countConstructions cfgW "model_a"
      ["model_a", "model_a", "model_b", "model_a"] RegState.init = 1 :=
  ⟨(detector_constructed_at_most_once cfgW "model_a" (by decide)).1 _ _,
   by decide⟩

/-! ## C2: unknown model identifiers are rejected -/

theorem appearsIn_pyStrJoin (v : String) (names : List String)
    (hv : v ∈ names) : appearsIn v (pyStrJoin names) := by
  induction names with
  | nil => cases hv
  | cons s rest ih =>
    rcases List.mem_cons.mp hv with rfl | hv'
    · cases rest with
      | nil => exact ⟨"\x27", "\x27", rfl⟩
      | cons r rs =>
        exact ⟨"\x27", "\x27" ++ ", " ++ pyStrJoin (r :: rs),
          by simp [pyStrJoin, pyStr, String.append_assoc]⟩
    · cases rest with
      | nil => cases hv'
      | cons r rs =>
        obtain ⟨a, b, hab⟩ := ih hv'
        exact ⟨pyStr s ++ ", " ++ a, b,
          by simp [pyStrJoin, hab, String.append_assoc]⟩

theorem appearsIn_unknownModelMsg (v m : String) (names : List String)
    (hv : v ∈ names) : appearsIn v (unknownModelMsg m names) := by
  obtain ⟨a, b, hab⟩ := appearsIn_pyStrJoin v names hv
  refine ⟨"Unknown model " ++ pyStr m ++ ". Available: " ++ "[" ++ a,
          b ++ "]", ?_⟩
  simp only [unknownModelMsg, pyStrListRepr, hab, String.append_assoc]

/-- Behaviour on an unconfigured model identifier, as one lemma:
`get_detector` errors without touching state, the message contains every
valid identifier, and a request reaching the detector-resolution step with
such an identifier is answered 500 with the registry unchanged. -/
theorem analyze_unknown_model_run (cfg : Config)
    (m : String) (hm : m ∉ cfg.MODEL_NAMES) :
    (∀ st, get_detector cfg m st =
        .error (unknownModelMsg m cfg.MODEL_NAMES)) ∧
    (∀ v ∈ cfg.MODEL_NAMES, appearsIn v (unknownModelMsg m cfg.MODEL_NAMES)) ∧
    (∀ env req st file default0 frames,
      req.files.lookup "file" = some file →
      file.filename ≠ "" →
      env.allowed_file file.filename cfg.ALLOWED_EXTENSIONS = true →
      cfg.MODEL_NAMES.head? = some default0 →
      (req.form.lookup "model_name").getD default0 = m →
      env.sample_frames
          (cfg.UPLOAD_DIR ++ "/" ++ (env.uid ++ "_" ++ env.secure_filename file.filename))
          cfg.SAMPLE_EVERY_N_FRAMES cfg.MAX_FRAMES (256, 256) = .ok frames →
      frames.isEmpty = false →
      analyze cfg env req st =
        (⟨500, .err (unknownModelMsg m cfg.MODEL_NAMES)⟩,
         [.savedFile (cfg.UPLOAD_DIR ++ "/" ++ (env.uid ++ "_" ++ env.secure_filename file.filename)),
          .sampledFrames (cfg.UPLOAD_DIR ++ "/" ++ (env.uid ++ "_" ++ env.secure_filename file.filename)),
          .calledGetDetector m,
          .loggedTraceback (unknownModelMsg m cfg.MODEL_NAMES)],
         st)) := by
  refine ⟨fun st => get_detector_invalid cfg m st hm,
          fun v hv => appearsIn_unknownModelMsg v m cfg.MODEL_NAMES hv, ?_⟩
  intro env req st file default0 frames hfile hfn hext hhead hform hsample hne
  unfold analyze analyze_body
  simp only [hfile, hfn, hext, hhead, hform, hsample, hne,
    get_detector_invalid cfg m st hm, if_neg, if_pos, ite_true, ite_false,
    not_true, not_false_iff, Bool.not_eq_true]
  simp [hfn, hext]

/-- C2: for every model identifier not in the configured list,
`get_detector` fails with the `Unknown model` error — whose message
contains every valid identifier — without touching the registry; and a
request reaching the detector-resolution step with such an identifier is
answered by the handler with a 500 response carrying that message, the
registry left exactly as it was. -/
theorem unknown_model_rejected_before_construction (cfg : Config)
    (m : String) (hm : m ∉ cfg.MODEL_NAMES) :
    (∀ st, get_detector cfg m st =
        .error (unknownModelMsg m cfg.MODEL_NAMES)) ∧
    (∀ v ∈ cfg.MODEL_NAMES, appearsIn v (unknownModelMsg m cfg.MODEL_NAMES)) ∧
    (∀ env req st file default0 frames,
      req.files.lookup "file" = some file →
      file.filename ≠ "" →
      env.allowed_file file.filename cfg.ALLOWED_EXTENSIONS = true →
      cfg.MODEL_NAMES.head? = some default0 →
      (req.form.lookup "model_name").getD default0 = m →
      env.sample_frames
          (cfg.UPLOAD_DIR ++ "/" ++ (env.uid ++ "_" ++ env.secure_filename file.filename))
          cfg.SAMPLE_EVERY_N_FRAMES cfg.MAX_FRAMES (256, 256) = .ok frames →
      frames.isEmpty = false →
      analyze cfg env req st =
        (⟨500, .err (unknownModelMsg m cfg.MODEL_NAMES)⟩,
         [.savedFile (cfg.UPLOAD_DIR ++ "/" ++ (env.uid ++ "_" ++ env.secure_filename file.filename)),
          .sampledFrames (cfg.UPLOAD_DIR ++ "/" ++ (env.uid ++ "_" ++ env.secure_filename file.filename)),
          .calledGetDetector m,
          .loggedTraceback (unknownModelMsg m cfg.MODEL_NAMES)],
         st)) :=
  analyze_unknown_model_run cfg m hm

/-- Witness for C2 at a concrete input: requesting `not_a_model` yields the
500 `Unknown model` response and leaves the registry in its initial state. -/
theorem unknown_model_rejected_before_construction_witness :
    analyze cfgW envW ⟨[("file", ⟨"vid.mp4"⟩)], [("model_name", "not_a_model")]⟩
        RegState.init =
      (⟨500, .err (unknownModelMsg "not_a_model" cfgW.MODEL_NAMES)⟩,
       [.savedFile "uploads/abcd1234_vid.mp4",
        .sampledFrames "uploads/abcd1234_vid.mp4",
        .calledGetDetector "not_a_model",
        .loggedTraceback (unknownModelMsg "not_a_model" cfgW.MODEL_NAMES)],
       RegState.init) := by
  have h := (unknown_model_rejected_before_construction cfgW "not_a_model"
      (by decide)).2.2 envW
      ⟨[("file", ⟨"vid.mp4"⟩)], [("model_name", "not_a_model")]⟩
      RegState.init ⟨"vid.mp4"⟩ "model_a" [0, 1, 2]
      rfl (by decide) rfl rfl rfl rfl rfl
  simpa [cfgW, envW] using h

/-! ## C4: the handler boundary catches every exception -/

/-- C4: whenever any step inside the `try:` block raises an exception, the
handler boundary catches it, logs the traceback, and answers with a 500
response whose body is exactly the exception's string representation; no
partial success payload is ever returned for such a request. -/
theorem handler_catches_all_exceptions (cfg : Config) (env : Env)
    (req : Request) (st : RegState) (e : String) (evs : List Event)
    (st' : RegState)
    (h : analyze_body cfg env req st = (.error e, evs, st')) :
    analyze cfg env req st =
      (⟨500, .err e⟩, evs ++ [.loggedTraceback e], st') ∧
    Event.loggedTraceback e ∈ (analyze cfg env req st).2.1 ∧
    ∀ p, (analyze cfg env req st).1.body ≠ .success p := by
  have hrun : analyze cfg env req st =
      (⟨500, .err e⟩, evs ++ [.loggedTraceback e], st') := by
    unfold analyze; rw [h]
  refine ⟨hrun, ?_, ?_⟩
  · rw [hrun]; simp
  · intro p; rw [hrun]; simp

/-- Witness for C4 at a concrete input: with an empty model list the body
raises `IndexError` and the handler answers 500 with that message. -/
theorem handler_catches_all_exceptions_witness :
    analyze cfgE envW reqW RegState.init =
      (⟨500, .err "list index out of range"⟩,
       [.loggedTraceback "list index out of range"], RegState.init) :=
  (handler_catches_all_exceptions cfgE envW reqW RegState.init
    "list index out of range" [] RegState.init rfl).1

/-! ## C9: `MODEL_NAMES[0]` is evaluated even when `model_name` is supplied -/

/-- C9: on every request that passes the file-presence, filename and
extension checks, line 46 evaluates `MODEL_NAMES[0]` as the (eager)
default argument of `request.form.get`, whatever the form contains; so
with an empty configured model list every such request fails with the
`IndexError` 500 response, and a non-empty list is a precondition for
avoiding that path. -/
theorem empty_model_list_fails_every_checked_request (cfg : Config)
    (env : Env) (req : Request) (st : RegState) (file : UploadedFile)
    (hfile : req.files.lookup "file" = some file)
    (hfn : file.filename ≠ "")
    (hext : env.allowed_file file.filename cfg.ALLOWED_EXTENSIONS = true)
    (hempty : cfg.MODEL_NAMES = []) :
    analyze cfg env req st =
      (⟨500, .err "list index out of range"⟩,
       [.loggedTraceback "list index out of range"], st) := by
  unfold analyze analyze_body
  simp [hfile, hfn, hext, hempty]

/-- Witness for C9 at a concrete input: the request supplies
`model_name=model_a`, yet with `MODEL_NAMES = []` the handler still
answers the `IndexError` 500. -/
theorem empty_model_list_fails_every_checked_request_witness :
    analyze cfgE envW ⟨[("file", ⟨"vid.mp4"⟩)], [("model_name", "model_a")]⟩
        RegState.init =
      (⟨500, .err "list index out of range"⟩,
       [.loggedTraceback "list index out of range"], RegState.init) :=
  empty_model_list_fails_every_checked_request cfgE envW
    ⟨[("file", ⟨"vid.mp4"⟩)], [("model_name", "model_a")]⟩ RegState.init
    ⟨"vid.mp4"⟩ rfl (by decide) rfl rfl

/-! ## C6: a disallowed extension stops the request before any work -/

theorem appearsIn_extensionsMsg (v : String) (exts : List String)
    (hv : v ∈ exts) :
    appearsIn v ("allowed extensions: " ++ pyStrSetRepr exts) := by
  obtain ⟨a, b, hab⟩ := appearsIn_pyStrJoin v exts hv
  refine ⟨"allowed extensions: " ++ "\x7b" ++ a, b ++ "\x7d", ?_⟩
  simp only [pyStrSetRepr, hab, String.append_assoc]

/-- C6: a request whose filename fails the extension allow-list check is
answered 400 with a message listing the acceptable extensions, with an
empty side-effect trace — so neither the frame sampler nor `get_detector`
(hence no detector construction or model loading) runs — and the registry
is exactly as before. -/
theorem disallowed_extension_stops_request (cfg : Config) (env : Env)
    (req : Request) (st : RegState) (file : UploadedFile)
    (hfile : req.files.lookup "file" = some file)
    (hfn : file.filename ≠ "")
    (hext : env.allowed_file file.filename cfg.ALLOWED_EXTENSIONS = false) :
    analyze cfg env req st =
      (⟨400, .err ("allowed extensions: " ++ pyStrSetRepr cfg.ALLOWED_EXTENSIONS)⟩,
       [], st) ∧
    (∀ v ∈ cfg.ALLOWED_EXTENSIONS,
      appearsIn v ("allowed extensions: " ++ pyStrSetRepr cfg.ALLOWED_EXTENSIONS)) ∧
    (∀ p, Event.sampledFrames p ∉ (analyze cfg env req st).2.1) ∧
    (∀ mo, Event.calledGetDetector mo ∉ (analyze cfg env req st).2.1) ∧
    (analyze cfg env req st).2.2 = st := by
  have hrun : analyze cfg env req st =
      (⟨400, .err ("allowed extensions: " ++ pyStrSetRepr cfg.ALLOWED_EXTENSIONS)⟩,
       [], st) := by
    unfold analyze analyze_body
    simp [hfile, hfn, hext]
  refine ⟨hrun, fun v hv => appearsIn_extensionsMsg v _ hv, ?_, ?_, ?_⟩ <;>
    rw [hrun] <;> simp

/-- Witness for C6 at a concrete input. -/
theorem disallowed_extension_stops_request_witness :
    analyze cfgW envNoExt ⟨[("file", ⟨"vid.txt"⟩)], []⟩ RegState.init =
      (⟨400, .err ("allowed extensions: " ++ pyStrSetRepr cfgW.ALLOWED_EXTENSIONS)⟩,
       [], RegState.init) ∧
    appearsIn "mp4" ("allowed extensions: " ++ pyStrSetRepr cfgW.ALLOWED_EXTENSIONS) := by
  have h := disallowed_extension_stops_request cfgW envNoExt
    ⟨[("file", ⟨"vid.txt"⟩)], []⟩ RegState.init ⟨"vid.txt"⟩
    rfl (by decide) rfl
  exact ⟨h.1, h.2.1 "mp4" (by decide)⟩

/-! ## C3 and C7: shape of the success response -/

/-- The full success run of `analyze`, shared by the success-path lemmas:
with all checks passed, sampling non-empty, detector resolved and
inference succeeding, the handler answers 200 with the assembled payload. -/
theorem analyze_success_run (cfg : Config) (env : Env) (req : Request)
    (st : RegState) (file : UploadedFile) (default0 : String)
    (frames : List Nat) (det : Detector) (st2 : RegState)
    (scores : List Int) (agg : Int)
    (hfile : req.files.lookup "file" = some file)
    (hfn : file.filename ≠ "")
    (hext : env.allowed_file file.filename cfg.ALLOWED_EXTENSIONS = true)
    (hhead : cfg.MODEL_NAMES.head? = some default0)
    (hsample : env.sample_frames
        (cfg.UPLOAD_DIR ++ "/" ++ (env.uid ++ "_" ++ env.secure_filename file.filename))
        cfg.SAMPLE_EVERY_N_FRAMES cfg.MAX_FRAMES (256, 256) = .ok frames)
    (hne : frames.isEmpty = false)
    (hdet : get_detector cfg ((req.form.lookup "model_name").getD default0) st
        = .ok (det, st2))
    (hscores : env.predict_frames det frames = .ok scores)
    (hagg : env.aggregate det scores = .ok agg) :
    analyze cfg env req st =
      (⟨200, .success
        { filename := env.secure_filename file.filename
          model_used := (req.form.lookup "model_name").getD default0
          num_frames := frames.length
          frame_scores := scores
          aggregate := agg
          thumbnails := mkThumbnails env frames scores }⟩,
       [.savedFile (cfg.UPLOAD_DIR ++ "/" ++ (env.uid ++ "_" ++ env.secure_filename file.filename)),
        .sampledFrames (cfg.UPLOAD_DIR ++ "/" ++ (env.uid ++ "_" ++ env.secure_filename file.filename)),
        .calledGetDetector ((req.form.lookup "model_name").getD default0)],
       st2) := by
  unfold analyze analyze_body
  simp [hfile, hfn, hext, hhead, hsample, hne, hdet, hscores, hagg]

theorem mkThumbnails_length (env : Env) (frames : List Nat)
    (scores : List Int) :
    (mkThumbnails env frames scores).length = min 6 frames.length := by
  simp [mkThumbnails, List.length_take]

/-- C3: for every request with a valid upload, a recognized model, at
least one extractable frame and succeeding inference (the detector being
per-frame, as `detector.py`'s spec states), the success response
satisfies `num_frames = len(frame_scores)` and
`len(thumbnails) = min(6, num_frames)`. -/
theorem success_response_counts (cfg : Config) (env : Env) (req : Request)
    (st : RegState) (file : UploadedFile) (default0 : String)
    (frames : List Nat) (det : Detector) (st2 : RegState)
    (scores : List Int) (agg : Int)
    (hpf : PerFrameDetector env)
    (hfile : req.files.lookup "file" = some file)
    (hfn : file.filename ≠ "")
    (hext : env.allowed_file file.filename cfg.ALLOWED_EXTENSIONS = true)
    (hhead : cfg.MODEL_NAMES.head? = some default0)
    (hsample : env.sample_frames
        (cfg.UPLOAD_DIR ++ "/" ++ (env.uid ++ "_" ++ env.secure_filename file.filename))
        cfg.SAMPLE_EVERY_N_FRAMES cfg.MAX_FRAMES (256, 256) = .ok frames)
    (hne : frames.isEmpty = false)
    (hdet : get_detector cfg ((req.form.lookup "model_name").getD default0) st
        = .ok (det, st2))
    (hscores : env.predict_frames det frames = .ok scores)
    (hagg : env.aggregate det scores = .ok agg) :
    ∃ p evs st', analyze cfg env req st = (⟨200, .success p⟩, evs, st') ∧
      p.num_frames = p.frame_scores.length ∧
      p.thumbnails.length = min 6 p.num_frames := by
  refine ⟨_, _, _,
    analyze_success_run cfg env req st file default0 frames det st2 scores agg
      hfile hfn hext hhead hsample hne hdet hscores hagg, ?_, ?_⟩
  · exact (hpf det frames scores hscores).symm
  · exact mkThumbnails_length env frames scores

theorem perFrame_envW : PerFrameDetector envW := by
  intro d frames scores h
  simp only [envW, Except.ok.injEq] at h
  rw [← h]
  simp

/-- Witness for C3 at a concrete input: three frames, one score each. -/
theorem success_response_counts_witness :
    ∃ p evs st', analyze cfgW envW reqW RegState.init =
        (⟨200, .success p⟩, evs, st') ∧
      p.num_frames = p.frame_scores.length ∧
      p.thumbnails.length = min 6 p.num_frames :=
  success_response_counts cfgW envW reqW RegState.init ⟨"vid.mp4"⟩ "model_a"
    [0, 1, 2] ⟨"model_a", 0⟩ ⟨[("model_a", ⟨"model_a", 0⟩)], 1⟩
    [0, 1, 2] 7 perFrame_envW rfl (by decide) rfl rfl rfl rfl rfl rfl rfl

theorem mkThumbnails_get? (env : Env) (frames : List Nat)
    (scores : List Int) (i : Nat) :
    (mkThumbnails env frames scores).get? i =
      ((frames.take 6).get? i).map fun f =>
        { index := i
          img_b64 := env.frame_to_base64_bgr f
          score := if h : i < scores.length then some (scores.get ⟨i, h⟩) else none } := by
  unfold mkThumbnails
  rw [List.get?_map, List.get?_enum, Option.map_map]
  rfl

theorem dite_get_eq_get? (scores : List Int) (i : Nat) :
    (if h : i < scores.length then some (scores.get ⟨i, h⟩) else none) =
      (if i < scores.length then scores.get? i else none) := by
  by_cases h : i < scores.length
  · simp [h, List.get?_eq_get h]
  · simp [h]

/-- C7: in the assembled success response, the `i`-th thumbnail carries
index `i` and score `scores[i]` when `i` is below the score count and
`null` otherwise, so thumbnail assembly is total even when the frame and
score counts mismatch. -/
theorem thumbnails_never_index_past_scores (cfg : Config) (env : Env)
    (req : Request) (st : RegState) (file : UploadedFile)
    (default0 : String) (frames : List Nat) (det : Detector)
    (st2 : RegState) (scores : List Int) (agg : Int)
    (hfile : req.files.lookup "file" = some file)
    (hfn : file.filename ≠ "")
    (hext : env.allowed_file file.filename cfg.ALLOWED_EXTENSIONS = true)
    (hhead : cfg.MODEL_NAMES.head? = some default0)
    (hsample : env.sample_frames
        (cfg.UPLOAD_DIR ++ "/" ++ (env.uid ++ "_" ++ env.secure_filename file.filename))
        cfg.SAMPLE_EVERY_N_FRAMES cfg.MAX_FRAMES (256, 256) = .ok frames)
    (hne : frames.isEmpty = false)
    (hdet : get_detector cfg ((req.form.lookup "model_name").getD default0) st
        = .ok (det, st2))
    (hscores : env.predict_frames det frames = .ok scores)
    (hagg : env.aggregate det scores = .ok agg) :
    ∃ p evs st', analyze cfg env req st = (⟨200, .success p⟩, evs, st') ∧
      ∀ i t, p.thumbnails.get? i = some t →
        t.index = i ∧
        t.score = (if i < p.frame_scores.length
                   then p.frame_scores.get? i else none) := by
  refine ⟨_, _, _,
    analyze_success_run cfg env req st file default0 frames det st2 scores agg
      hfile hfn hext hhead hsample hne hdet hscores hagg, ?_⟩
  intro i t ht
  rw [mkThumbnails_get? env frames scores i] at ht
  cases hf : (frames.take 6).get? i with
  | none => rw [hf] at ht; cases ht
  | some f =>
    rw [hf] at ht
    simp only [Option.map_some'] at ht
    injection ht with ht2
    subst ht2
    exact ⟨rfl, dite_get_eq_get? scores i⟩

/-- Witness for C7 at a concrete input with mismatched counts:
3 frames but a single score; thumbnail 0 carries `some 9`, thumbnails 1
and 2 carry `null`, and assembly still succeeds. -/
theorem thumbnails_never_index_past_scores_witness :
    ∃ p evs st', analyze cfgW envShort reqW RegState.init =
        (⟨200, .success p⟩, evs, st') ∧
      ∀ i t, p.thumbnails.get? i = some t →
        t.index = i ∧
        t.score = (if i < p.frame_scores.length
                   then p.frame_scores.get? i else none) :=
  thumbnails_never_index_past_scores cfgW envShort reqW RegState.init
    ⟨"vid.mp4"⟩ "model_a" [0, 1, 2] ⟨"model_a", 0⟩
    ⟨[("model_a", ⟨"model_a", 0⟩)], 1⟩ [9] 9
    rfl (by decide) rfl rfl rfl rfl rfl rfl rfl

/-! ## C5: what status an `UnknownModel` failure actually receives -/

/-- C5 counterexample: at a concrete request naming an unknown model, the
handler's response carries the `Unknown model` message with status 500 —
not the client-input 400 the claim asserts. -/
theorem unknown_model_not_answered_400_counterexample :
    (analyze cfgW envW ⟨[("file", ⟨"vid.mp4"⟩)], [("model_name", "not_a_model")]⟩
        RegState.init).1.status = 500 ∧
    (analyze cfgW envW ⟨[("file", ⟨"vid.mp4"⟩)], [("model_name", "not_a_model")]⟩
        RegState.init).1.body =
      .err (unknownModelMsg "not_a_model" cfgW.MODEL_NAMES) ∧
    ¬ (analyze cfgW envW ⟨[("file", ⟨"vid.mp4"⟩)], [("model_name", "not_a_model")]⟩
        RegState.init).1.status = 400 :=
  ⟨rfl, rfl, by decide⟩

/-- C5 amended: a request that fails with the `UnknownModel` error is
answered through the generic exception path with a server-error 500
response carrying the `Unknown model` message — not with a
client-input-error 400. -/
theorem unknown_model_answered_as_server_error (cfg : Config) (env : Env)
    (req : Request) (st : RegState) (file : UploadedFile)
    (default0 : String) (frames : List Nat)
    (hm : (req.form.lookup "model_name").getD default0 ∉ cfg.MODEL_NAMES)
    (hfile : req.files.lookup "file" = some file)
    (hfn : file.filename ≠ "")
    (hext : env.allowed_file file.filename cfg.ALLOWED_EXTENSIONS = true)
    (hhead : cfg.MODEL_NAMES.head? = some default0)
    (hsample : env.sample_frames
        (cfg.UPLOAD_DIR ++ "/" ++ (env.uid ++ "_" ++ env.secure_filename file.filename))
        cfg.SAMPLE_EVERY_N_FRAMES cfg.MAX_FRAMES (256, 256) = .ok frames)
    (hne : frames.isEmpty = false) :
    (analyze cfg env req st).1.status = 500 ∧
    (analyze cfg env req st).1.body =
      .err (unknownModelMsg ((req.form.lookup "model_name").getD default0)
              cfg.MODEL_NAMES) ∧
    (analyze cfg env req st).1.status ≠ 400 := by
  have h := (analyze_unknown_model_run cfg _ hm).2.2 env req st file default0
    frames hfile hfn hext hhead rfl hsample hne
  rw [h]
  exact ⟨rfl, rfl, by simp⟩

/-- Witness for the amended C5 at a concrete input. -/
theorem unknown_model_answered_as_server_error_witness :
    (analyze cfgW envW ⟨[("file", ⟨"vid.mp4"⟩)], [("model_name", "not_a_model")]⟩
        RegState.init).1.status = 500 ∧
    (analyze cfgW envW ⟨[("file", ⟨"vid.mp4"⟩)], [("model_name", "not_a_model")]⟩
        RegState.init).1.body =
      .err (unknownModelMsg "not_a_model" cfgW.MODEL_NAMES) ∧
    (analyze cfgW envW ⟨[("file", ⟨"vid.mp4"⟩)], [("model_name", "not_a_model")]⟩
        RegState.init).1.status ≠ 400 :=
  unknown_model_answered_as_server_error cfgW envW
    ⟨[("file", ⟨"vid.mp4"⟩)], [("model_name", "not_a_model")]⟩ RegState.init
    ⟨"vid.mp4"⟩ "model_a" [0, 1, 2]
    (by decide) rfl (by decide) rfl rfl rfl rfl

/-! ## C8: concurrent first-requests under the unsynchronized registry -/

/-- Running the four steps of a single `get_detector m` thread serially
has exactly the effect of one atomic `get_detector` call: the interleaving
model decomposes the source function faithfully. -/
theorem thread_run_eq_stepGet (cfg : Config) (m : String) (st : RegState)
    (hm : m ∈ cfg.MODEL_NAMES) :
    (interleave cfg m [true, true, true, true] ⟨st, .checkValid, .done⟩).g
      = stepGet cfg st m := by
  cases hl : st.detectors.lookup m with
  | some d => simp [interleave, threadStep, stepGet, get_detector, hm, hl]
  | none => simp [interleave, threadStep, stepGet, get_detector, hm, hl]

/-- C8 counterexample: under the code's unsynchronized
check-then-construct-then-store, the alternating schedule of two
first-requests for the valid model `model_a` completes both threads and
performs two constructions, not exactly one. -/
theorem concurrent_first_requests_construct_twice_counterexample :
    (interleave cfgW "model_a" racySchedule initMachine).g.counter = 2 ∧
    ¬ (interleave cfgW "model_a" racySchedule initMachine).g.counter = 1 ∧
    (interleave cfgW "model_a" racySchedule initMachine).pcA = .done ∧
    (interleave cfgW "model_a" racySchedule initMachine).pcB = .done :=
  ⟨rfl, by decide, rfl, rfl⟩

/-- C8 amended: the source takes no lock, so two concurrent first-requests
for the same valid not-yet-loaded identifier may construct two detector
instances; exactly one construction is guaranteed only when the two
requests are serialized, as in this schedule, where the second request
then finds and reuses the cached instance. -/
theorem serialized_first_requests_construct_once (cfg : Config) (m : String)
    (hm : m ∈ cfg.MODEL_NAMES) :
    (interleave cfg m serialSchedule initMachine).g.counter = 1 ∧
    (interleave cfg m serialSchedule initMachine).g.detectors.lookup m
      = some ⟨m, 0⟩ ∧
    (interleave cfg m serialSchedule initMachine).pcA = .done ∧
    (interleave cfg m serialSchedule initMachine).pcB = .done := by
  simp [interleave, serialSchedule, initMachine, threadStep, RegState.init,
    hm, lookup_cons_pair, List.lookup]

/-- Witness for the amended C8 at a concrete input. -/
theorem serialized_first_requests_construct_once_witness :
    (interleave cfgW "model_a" serialSchedule initMachine).g.counter = 1 ∧
    (interleave cfgW "model_a" serialSchedule initMachine).g.detectors.lookup "model_a"
      = some ⟨"model_a", 0⟩ ∧
    (interleave cfgW "model_a" serialSchedule initMachine).pcA = .done ∧
    (interleave cfgW "model_a" serialSchedule initMachine).pcB = .done :=
  serialized_first_requests_construct_once cfgW "model_a" (by decide)

/-! ## C10: the saved upload is never deleted -/

/-- `analyze` only ever appends the logged-traceback event to the trace of
the `try:` body; in particular it adds no deletion. -/
theorem analyze_trace_extends (cfg : Config) (env : Env) (req : Request)
    (st : RegState) :
    ∃ tail, (analyze cfg env req st).2.1 = (analyze_body cfg env req st).2.1 ++ tail ∧
      ∀ q, Event.deletedFile q ∉ tail := by
  rcases hb : analyze_body cfg env req st with ⟨res, evs, st'⟩
  cases res with
  | ok r =>
    refine ⟨[], ?_, by simp⟩
    unfold analyze
    rw [hb]
    simp
  | error e =>
    refine ⟨[Event.loggedTraceback e], ?_, by simp⟩
    unfold analyze
    rw [hb]

/-- On every path past the persist step — success, empty-frames 400,
unknown-model 500, inference 500 — the body's trace starts with the upload
write and contains no deletion. -/
theorem analyze_body_saved_and_no_delete (cfg : Config) (env : Env)
    (req : Request) (st : RegState) (file : UploadedFile) (default0 : String)
    (hfile : req.files.lookup "file" = some file)
    (hfn : file.filename ≠ "")
    (hext : env.allowed_file file.filename cfg.ALLOWED_EXTENSIONS = true)
    (hhead : cfg.MODEL_NAMES.head? = some default0) :
    Event.savedFile
        (cfg.UPLOAD_DIR ++ "/" ++ (env.uid ++ "_" ++ env.secure_filename file.filename))
      ∈ (analyze_body cfg env req st).2.1 ∧
    ∀ q, Event.deletedFile q ∉ (analyze_body cfg env req st).2.1 := by
  unfold analyze_body
  simp only [hfile, hfn, hext, hhead, not_true, Bool.not_eq_true, if_neg,
    not_false_iff, ite_false, ite_true]
  cases hs : env.sample_frames
      (cfg.UPLOAD_DIR ++ "/" ++ (env.uid ++ "_" ++ env.secure_filename file.filename))
      cfg.SAMPLE_EVERY_N_FRAMES cfg.MAX_FRAMES (256, 256) with
  | error e => simp [hs]
  | ok frames =>
    cases hfe : frames.isEmpty with
    | true => simp [hs, hfe]
    | false =>
      cases hgd : get_detector cfg ((req.form.lookup "model_name").getD default0) st with
      | error e => simp [hs, hfe, hgd]
      | ok pair =>
        cases hps : env.predict_frames pair.1 frames with
        | error e => simp [hs, hfe, hgd, hps]
        | ok scores =>
          cases hag : env.aggregate pair.1 scores with
          | error e => simp [hs, hfe, hgd, hps, hag]
          | ok agg => simp [hs, hfe, hgd, hps, hag]

/-- C10: the handler never deletes the saved upload: for every request
that reaches the persist step, the file written under
`{prefix}_{sanitized filename}` in the upload directory is recorded as
saved in the request's side-effect trace and no deletion event ever
appears in it — on the success path, the empty-frames 400 path, and every
exception 500 path alike. -/
theorem upload_file_never_deleted (cfg : Config) (env : Env) (req : Request)
    (st : RegState) (file : UploadedFile) (default0 : String)
    (hfile : req.files.lookup "file" = some file)
    (hfn : file.filename ≠ "")
    (hext : env.allowed_file file.filename cfg.ALLOWED_EXTENSIONS = true)
    (hhead : cfg.MODEL_NAMES.head? = some default0) :
    Event.savedFile
        (cfg.UPLOAD_DIR ++ "/" ++ (env.uid ++ "_" ++ env.secure_filename file.filename))
      ∈ (analyze cfg env req st).2.1 ∧
    ∀ q, Event.deletedFile q ∉ (analyze cfg env req st).2.1 := by
  obtain ⟨tail, htr, htail⟩ := analyze_trace_extends cfg env req st
  obtain ⟨hsaved, hnodel⟩ :=
    analyze_body_saved_and_no_delete cfg env req st file default0
      hfile hfn hext hhead
  constructor
  · rw [htr]; exact List.mem_append_left _ hsaved
  · intro q hq
    rw [htr] at hq
    rcases List.mem_append.mp hq with h | h
    · exact hnodel q h
    · exact htail q h

/-- Witness for C10 at a concrete input (a successful request). -/
theorem upload_file_never_deleted_witness :
    Event.savedFile
        (cfgW.UPLOAD_DIR ++ "/" ++ (envW.uid ++ "_" ++ envW.secure_filename "vid.mp4"))
      ∈ (analyze cfgW envW reqW RegState.init).2.1 ∧
    ∀ q, Event.deletedFile q ∉ (analyze cfgW envW reqW RegState.init).2.1 :=
  upload_file_never_deleted cfgW envW reqW RegState.init ⟨"vid.mp4"⟩ "model_a"
    rfl (by decide) rfl rfl

end DFApp
